import Mathlib

/-!
Verification development for the `evaluate-rag` repository.

This file gives a shallow embedding of the judge-evaluation and comparison
engine (`src/ai_judge.py`, `src/evaluate_light.py`, `src/report_generator.py`,
`src/console_presenter.py`) and settles the frozen claims about it.

Modelling conventions:
* Python strings are Lean `String`s; the Python-level operations used by the
  source (`str.strip`, `str.lower`, `in`, slicing, `str.count`, `str.join`)
  are re-implemented below over the character list `String.data`, so that
  every definition evaluates by kernel reduction.
* The LiteLLM `completion` call is an oracle `Nat → AttemptOutcome`: the
  outcome of the i-th call made by one `judge_response` invocation is either
  a delivered text payload or a raised exception carrying its message.
* `json.loads` is an oracle `String → Option EvaluationResult`: `none` models
  a `json.JSONDecodeError`, `some e` a successfully parsed object.  The five
  criterion keys, `overall_assessment`, `error` and `raw_response` are the
  only keys the evaluated code ever reads, so an `EvaluationResult` record of
  optional fields models the parsed dict faithfully for those reads.
* `time.sleep` and call counting are made observable: the judge loop returns,
  next to its result, the number of `completion` calls made and the total
  seconds slept.
* A Python `raise` escaping a function is modelled with `Except`.
-/

/-- Python `str` whitespace test used by `str.strip()` (ASCII part; the
source never feeds non-ASCII whitespace to `.strip`). -/
def isPySpace (c : Char) : Bool :=
  c == ' ' || c == '\t' || c == '\n' || c == '\r' || c == '\x0b' || c == '\x0c'

/-- Python `str.strip()`: drop whitespace from both ends. -/
def pyStrip (s : String) : String :=
  String.mk (((s.data.dropWhile isPySpace).reverse.dropWhile isPySpace).reverse)

/-- Python `str.lower()` (ASCII case folding, as used on error messages). -/
def pyLower (s : String) : String :=
  String.mk (s.data.map Char.toLower)

/-- Python `prefix in s` check restricted to a prefix position:
`s.startswith(p)`. -/
def pyStartsWith (p s : String) : Bool :=
  p.data.isPrefixOf s.data

/-- Python `s.endswith(p)`. -/
def pyEndsWith (p s : String) : Bool :=
  p.data.isSuffixOf s.data

/-- Python `s[n:]` (drop the first `n` code points). -/
def pyDrop (n : Nat) (s : String) : String :=
  String.mk (s.data.drop n)

/-- Python `s[:-n]` (drop the last `n` code points; empty when `n ≥ len`). -/
def pyDropRight (n : Nat) (s : String) : String :=
  String.mk (s.data.take (s.data.length - n))

/-- Python substring containment `needle in hay` on character lists. -/
def containsSub (needle : List Char) : List Char → Bool
  | [] => needle.isEmpty
  | c :: t => needle.isPrefixOf (c :: t) || containsSub needle t

/-- `src/ai_judge.py` lines 149 and 164: the transient-overload test
`'503' in err or 'overloaded' in err.lower()`. -/
def isTransientError (msg : String) : Bool :=
  containsSub "503".data msg.data || containsSub "overloaded".data (pyLower msg).data

/-- `src/ai_judge.py` lines 127-134: strip one optional leading code fence
(JSON-tagged or bare) and, only when present, one trailing fence. -/
def stripFences (s : String) : String :=
  if pyStartsWith "```json" s then
    let t := pyDrop 7 s
    if pyEndsWith "```" t then pyDropRight 3 t else t
  else if pyStartsWith "```" s then
    let t := pyDrop 3 s
    if pyEndsWith "```" t then pyDropRight 3 t else t
  else s

/-- `src/evaluate_light.py` lines 186-189: the same sanitization, except the
trailing slice `[7:-3]` / `[3:-3]` is applied unconditionally whenever a
leading fence is present. -/
def stripFencesLight (s : String) : String :=
  if pyStartsWith "```json" s then pyDropRight 3 (pyDrop 7 s)
  else if pyStartsWith "```" s then pyDropRight 3 (pyDrop 3 s)
  else s

/-- `src/ai_judge.py` line 124 followed by lines 127-134: the cleaned text a
delivered payload is reduced to before `json.loads`. -/
def cleanResponse (text : String) : String :=
  stripFences (pyStrip text)

/-- One entry of a parsed evaluation: `{"score": ..., "justification": ...}`. -/
structure CriterionScore where
  score : Int
  justification : String
deriving DecidableEq

/-- The dictionary shape `judge_response` builds or returns, restricted to the
keys the code reads.  `none` on a field models an absent key. -/
structure EvaluationResult where
  factual_consistency : Option CriterionScore
  instruction_following : Option CriterionScore
  domain_knowledge : Option CriterionScore
  context_precision : Option CriterionScore
  context_recall : Option CriterionScore
  overall_assessment : Option String
  error : Option String
  raw_response : Option String
deriving DecidableEq

/-- The empty dict `{}` (e.g. `rag.get('evaluation', {})`). -/
def emptyEval : EvaluationResult :=
  ⟨none, none, none, none, none, none, none, none⟩

/-- The `{"score": 0, "justification": "Erro na avaliação"}` entry of the
exhaustion record, `src/ai_judge.py` lines 176-180. -/
def zeroScore : CriterionScore :=
  ⟨0, "Erro na avaliação"⟩

/-- `src/ai_judge.py` line 144: the record returned when `json.loads` fails. -/
def invalidJsonRecord (raw : String) : EvaluationResult :=
  ⟨none, none, none, none, none, none, some "invalid_json", some raw⟩

/-- `src/ai_judge.py` lines 174-181: the record returned when the retry loop
exits without a terminal return. -/
def exhaustionRecord : EvaluationResult :=
  ⟨some zeroScore, some zeroScore, some zeroScore, some zeroScore,
   some zeroScore, none, some "Falha após todas as tentativas", none⟩

/-- The five criterion fields of a record, in rubric order. -/
def criteriaList (e : EvaluationResult) : List (Option CriterionScore) :=
  [e.factual_consistency, e.instruction_following, e.domain_knowledge,
   e.context_precision, e.context_recall]

/-- Outcome of one `litellm.completion` call: a delivered textual payload, or
a raised exception with its message (`str(e)`). -/
inductive AttemptOutcome where
  | success (text : String)
  | exn (msg : String)

/-- Whether an attempt outcome is a raised transient-overload failure. -/
def attemptIsTransientFailure : AttemptOutcome → Bool
  | AttemptOutcome.success _ => false
  | AttemptOutcome.exn msg => isTransientError msg

/-- The retry loop of `AIJudge.judge_response`, `src/ai_judge.py` lines
109-181.  Arguments: the `json.loads` oracle, the `completion` oracle, the
current `attempt` index, the remaining iterations of
`for attempt in range(max_retries)`, and the current `retry_delay`.
Returns the produced record, the number of `completion` calls made, and the
total seconds slept.  The two `except` clauses of the source (lines 146-171)
behave identically with respect to retrying — retry only when the message is
transient and `attempt < max_retries - 1`, otherwise fall through to the
exhaustion record — so they are modelled by a single `exn` branch. -/
def judgeGo (parse : String → Option EvaluationResult)
    (outcomes : Nat → AttemptOutcome) :
    Nat → Nat → Nat → EvaluationResult × Nat × Nat
  | _, 0, _ => (exhaustionRecord, 0, 0)
  | attempt, remaining + 1, delay =>
    match outcomes attempt with
    | AttemptOutcome.success text =>
      let cleaned := cleanResponse text
      match parse cleaned with
      | some ev => (ev, 1, 0)
      | none => (invalidJsonRecord cleaned, 1, 0)
    | AttemptOutcome.exn msg =>
      if isTransientError msg then
        if remaining > 0 then
          let r := judgeGo parse outcomes (attempt + 1) remaining (delay * 2)
          (r.1, r.2.1 + 1, r.2.2 + delay)
        else (exhaustionRecord, 1, 0)
      else (exhaustionRecord, 1, 0)

/-- Python `a or b` on an optional string (`""` and `None` are falsy), as in
`self.config.get("ai_judge_model") or os.getenv("AI_JUDGE_MODEL")`. -/
def pyOrStr : Option String → Option String → Option String
  | some s, b => if s = "" then b else some s
  | none, b => b

/-- `AIJudge._default_model`, `src/ai_judge.py` lines 45-46. -/
def default_model (cfgModel envModel : Option String) : Option String :=
  pyOrStr cfgModel envModel

/-- Observable outcome of one `judge_response` call: the returned record (or
the raised `ValueError` message), the number of `completion` calls, and the
total seconds slept. -/
structure JudgeOutcome where
  result : Except String EvaluationResult
  calls : Nat
  sleptSeconds : Nat

/-- `src/ai_judge.py` line 102: the `ValueError` message. -/
def noModelMsg : String :=
  "AIJudge: nenhum modelo especificado (model param or test_config.json)"

/-- `AIJudge.judge_response`, `src/ai_judge.py` lines 83-181.  The `model`
argument is resolved against the config-file and environment defaults (lines
98-102); on failure the `ValueError` is modelled as `Except.error`.  The
resolved model string is consumed by `completion`, which is abstracted into
the `outcomes` oracle; prompt construction (line 107) does not influence the
observable outcome and is omitted.  The loop starts with `retry_delay = 5`
(line 109). -/
def judge_response (model cfgModel envModel : Option String)
    (parse : String → Option EvaluationResult)
    (outcomes : Nat → AttemptOutcome) (max_retries : Nat) : JudgeOutcome :=
  match (match model with
         | some m => some m
         | none => default_model cfgModel envModel) with
  | none => ⟨Except.error noModelMsg, 0, 0⟩
  | some _ =>
    let r := judgeGo parse outcomes 0 max_retries 5
    ⟨Except.ok r.1, r.2.1, r.2.2⟩

/-- The five fixed criterion keys, in the order of the `criteria` lists in
`src/report_generator.py` lines 196-197 and `src/console_presenter.py` lines
141-142. -/
inductive CritKey where
  | factual_consistency
  | instruction_following
  | domain_knowledge
  | context_precision
  | context_recall
deriving DecidableEq

/-- The `criteria` iteration order. -/
def criteriaKeys : List CritKey :=
  [CritKey.factual_consistency, CritKey.instruction_following,
   CritKey.domain_knowledge, CritKey.context_precision, CritKey.context_recall]

/-- Dictionary lookup `evaluation[criterion]` (with the `isinstance(..., dict)`
shape check folded into the `Option`). -/
def getCrit : CritKey → EvaluationResult → Option CriterionScore
  | CritKey.factual_consistency, e => e.factual_consistency
  | CritKey.instruction_following, e => e.instruction_following
  | CritKey.domain_knowledge, e => e.domain_knowledge
  | CritKey.context_precision, e => e.context_precision
  | CritKey.context_recall, e => e.context_recall

/-- Python key names, printed by `console_presenter.print_score_comparison`. -/
def critName : CritKey → String
  | CritKey.factual_consistency => "factual_consistency"
  | CritKey.instruction_following => "instruction_following"
  | CritKey.domain_knowledge => "domain_knowledge"
  | CritKey.context_precision => "context_precision"
  | CritKey.context_recall => "context_recall"

/-- The `criteria_labels` / `criteria_map` tables of
`src/report_generator.py` (lines 162-168 and 199-205). -/
def critLabel : CritKey → String
  | CritKey.factual_consistency => "Consistência Factual"
  | CritKey.instruction_following => "Seguir Instruções"
  | CritKey.domain_knowledge => "Conhecimento Jurídico"
  | CritKey.context_precision => "Precisão do Contexto"
  | CritKey.context_recall => "Cobertura do Contexto"

/-- One RAG pipeline result dict (`answer` / `context` / `latency` /
`num_chunks`, with the `evaluation` key attached later by the orchestrator).
The latency is kept as an exact rational; its decimal formatting is supplied
externally (see `Fmt`). -/
structure RagResult where
  answer : String
  context : List String
  latency : ℚ
  num_chunks : Nat
  evaluation : Option EvaluationResult

/-- Tag distinguishing the two pipelines in `_build_rag_section`
(`rag_type == "file_search"`). -/
inductive RagKind where
  | manual
  | fileSearch

/-- The comparison-table loop of
`EvaluationReportGenerator._build_comparison_section`
(`src/report_generator.py` lines 207-217): one `(label, manual score,
file-search score, difference)` row per criterion present as a dict on both
sides, with `diff = f_score - m_score`. -/
def comparisonRows (me fe : EvaluationResult) :
    List (String × Int × Int × Int) :=
  criteriaKeys.filterMap (fun k =>
    match getCrit k me, getCrit k fe with
    | some a, some b => some (critLabel k, a.score, b.score, b.score - a.score)
    | _, _ => none)

/-- The row loop of `ConsolePresenter.print_score_comparison`
(`src/console_presenter.py` lines 150-159): the function never inspects the
`error` key; it prints one row per criterion carrying a score on both sides,
with `diff = f_score - m_score`.  The evaluations are read with
`result.get('evaluation', {})`. -/
def consoleScoreComparisonRows (manual_result file_search_result : RagResult) :
    List (String × Int × Int × Int) :=
  let me := manual_result.evaluation.getD emptyEval
  let fe := file_search_result.evaluation.getD emptyEval
  criteriaKeys.filterMap (fun k =>
    match getCrit k me, getCrit k fe with
    | some a, some b => some (critName k, a.score, b.score, b.score - a.score)
    | _, _ => none)

/-- Python `"\n".join(sections)`. -/
def joinLines : List String → String
  | [] => ""
  | [x] => x
  | x :: y :: t => x ++ "\n" ++ joinLines (y :: t)

/-- Python `f"{diff:.1f}"` for an integer-valued difference. -/
def intFix1 (i : Int) : String :=
  toString i ++ ".0"

/-- `src/report_generator.py` line 214: `f"+{diff:.1f}" if diff > 0 else
f"{diff:.1f}"`. -/
def diffString (diff : Int) : String :=
  if diff > 0 then "+" ++ intFix1 diff else intFix1 diff

/-- Python `f"{i:+d}"`. -/
def plusIntString (i : Int) : String :=
  if 0 ≤ i then "+" ++ toString i else toString i

/-- Sum of Python `len(c)` over a chunk list. -/
def sumLens (cs : List String) : Nat :=
  (cs.map String.length).sum

/-- External formatting backends for the two spots where the source formats
values this embedding keeps abstract: `datetime.fromisoformat(ts).strftime(...)`
in `_build_header`, and the `f"{latency:.2f}"` float formatting in
`_build_rag_section`. -/
structure Fmt where
  fmtHeaderTime : String → String
  fmtLatency : ℚ → String

/-- The per-question report dict built by `evaluate_single_question`
(`src/evaluate_light.py` lines 303-310); `none` models a pipeline whose value
is `None`. -/
structure QuestionReport where
  question_id : Nat
  question : String
  category : String
  timestamp : String
  manual_rag : Option RagResult
  file_search_rag : Option RagResult

/-- `EvaluationReportGenerator._build_header`, lines 114-123. -/
def buildHeader (fmt : Fmt) (r : QuestionReport) : String :=
  "# Avaliação: Pergunta " ++ toString r.question_id ++ "\n\n**Data:** "
    ++ fmt.fmtHeaderTime r.timestamp ++ "\n\n**Categoria:** " ++ r.category ++ "\n"

/-- `EvaluationReportGenerator._build_question_section`, lines 125-132. -/
def buildQuestionSection (r : QuestionReport) : String :=
  "## 📝 Pergunta\n\n" ++ r.question ++ "\n\n---\n"

/-- `EvaluationReportGenerator._build_judge_evaluation_table`, lines 156-179. -/
def buildJudgeEvaluationTable (ev : EvaluationResult) : String :=
  joinLines
    (["### ⚖️ Avaliação AI Judge\n",
      "| Critério | Score | Justificativa |",
      "|----------|-------|---------------|"]
     ++ criteriaKeys.filterMap (fun k =>
          (getCrit k ev).map (fun c =>
            "| " ++ critLabel k ++ " | " ++ toString c.score ++ "/5 | "
              ++ c.justification ++ " |"))
     ++ (match ev.overall_assessment with
         | some o => ["\n**Avaliação Geral:** " ++ o ++ "\n"]
         | none => []))

/-- `EvaluationReportGenerator._build_rag_section`, lines 134-154.  The judge
table is included only when the `evaluation` key is present and carries no
`error` key. -/
def buildRagSection (fmt : Fmt) (rag : RagResult) (title : String)
    (kind : RagKind) : String :=
  joinLines
    (["## " ++ title ++ "\n",
      "**" ++ (match kind with
               | RagKind.fileSearch => "Latência (TTFT)"
               | RagKind.manual => "Latência")
          ++ ":** " ++ fmt.fmtLatency rag.latency ++ "s\n",
      "**Chunks Recuperados:** " ++ toString rag.num_chunks ++ "\n",
      "### Resposta\n",
      rag.answer ++ "\n"]
     ++ (match rag.evaluation with
         | some ev =>
           if ev.error.isSome then [] else [buildJudgeEvaluationTable ev]
         | none => [])
     ++ ["---\n"])

/-- The winner-tally fold of
`EvaluationReportGenerator._build_winner_summary`, lines 236-254: lines so
far, manual wins, file-search wins, ties. -/
def winnerFold (me fe : EvaluationResult) : List String × Nat × Nat × Nat :=
  criteriaKeys.foldl
    (fun acc k =>
      match getCrit k me, getCrit k fe with
      | some a, some b =>
        if a.score > b.score then
          (acc.1 ++ ["- **" ++ critLabel k ++ ":** 🔧 RAG Manual"],
           acc.2.1 + 1, acc.2.2.1, acc.2.2.2)
        else if b.score > a.score then
          (acc.1 ++ ["- **" ++ critLabel k ++ ":** 🔍 File Search RAG"],
           acc.2.1, acc.2.2.1 + 1, acc.2.2.2)
        else
          (acc.1 ++ ["- **" ++ critLabel k ++ ":** 🤝 Empate"],
           acc.2.1, acc.2.2.1, acc.2.2.2 + 1)
      | _, _ => acc)
    (["\n### 🏆 Vencedor por Critério\n"], 0, 0, 0)

/-- `EvaluationReportGenerator._build_winner_summary`, lines 227-258. -/
def buildWinnerSummary (me fe : EvaluationResult) : String :=
  joinLines
    ((winnerFold me fe).1
     ++ ["\n**Resumo:** RAG Manual (" ++ toString (winnerFold me fe).2.1
          ++ ") | File Search RAG (" ++ toString (winnerFold me fe).2.2.1
          ++ ") | Empates (" ++ toString (winnerFold me fe).2.2.2 ++ ")\n"])

/-- `EvaluationReportGenerator._build_chunk_analysis`, lines 260-280. -/
def buildChunkAnalysis (manual file_search : RagResult) : String :=
  joinLines
    ["---\n",
     "## 🔬 Análise de Chunks\n",
     "| Métrica | RAG Manual | File Search RAG |",
     "|---------|------------|----------------|",
     "| Chunks enviados | " ++ toString (manual.context.take 5).length
       ++ " | " ++ toString (file_search.context.take 5).length ++ " |",
     "| Total de caracteres | " ++ toString (sumLens (manual.context.take 5))
       ++ " | " ++ toString (sumLens (file_search.context.take 5)) ++ " |",
     "| Tamanho médio/chunk | "
       ++ toString (sumLens (manual.context.take 5)
            / max (manual.context.take 5).length 1) ++ " chars | "
       ++ toString (sumLens (file_search.context.take 5)
            / max (file_search.context.take 5).length 1) ++ " chars |",
     "\n**Diferença de caracteres:** "
       ++ plusIntString ((sumLens (file_search.context.take 5) : Int)
            - (sumLens (manual.context.take 5) : Int)) ++ "\n"]

/-- `EvaluationReportGenerator._build_comparison_section`, lines 181-225:
returns the empty string as soon as either evaluation (read with
`.get('evaluation', {})`) carries an `error` key; otherwise renders the
difference table, the winner summary and the chunk analysis. -/
def buildComparisonSection (manual file_search : RagResult) : String :=
  let me := manual.evaluation.getD emptyEval
  let fe := file_search.evaluation.getD emptyEval
  if me.error.isSome || fe.error.isSome then ""
  else
    joinLines
      (["## 📊 Comparação de Scores\n",
        "| Critério | RAG Manual | File Search RAG | Diferença |",
        "|----------|------------|-----------------|----------|"]
       ++ (comparisonRows me fe).map (fun row =>
            "| " ++ row.1 ++ " | " ++ toString row.2.1 ++ "/5 | "
              ++ toString row.2.2.1 ++ "/5 | " ++ diffString row.2.2.2 ++ " |")
       ++ [buildWinnerSummary me fe, buildChunkAnalysis manual file_search])

/-- `EvaluationReportGenerator._build_footer`, lines 282-288; `nowStr` is the
already-formatted `datetime.now().strftime(...)` timestamp. -/
def buildFooter (nowStr : String) : String :=
  "---\n\n*Relatório gerado automaticamente em " ++ nowStr ++ "*\n"

/-- `EvaluationReportGenerator._generate_markdown_content`, lines 85-112:
header, question, the two optional pipeline sections (a `None` pipeline value
is falsy and skipped), the comparison section appended whenever both pipeline
dicts are truthy, then the footer; all joined with newlines. -/
def generateMarkdownContent (fmt : Fmt) (r : QuestionReport)
    (nowStr : String) : String :=
  joinLines
    ([buildHeader fmt r, buildQuestionSection r]
     ++ (match r.manual_rag with
         | some m => [buildRagSection fmt m "🔧 RAG Manual" RagKind.manual]
         | none => [])
     ++ (match r.file_search_rag with
         | some f => [buildRagSection fmt f "🔍 File Search RAG" RagKind.fileSearch]
         | none => [])
     ++ (match r.manual_rag, r.file_search_rag with
         | some m, some f => [buildComparisonSection m f]
         | _, _ => [])
     ++ [buildFooter nowStr])

/-- Outcome of one pipeline try-block body (`run_manual_rag` /
`run_file_search_rag` plus the presenter calls, `src/evaluate_light.py`
lines 236-258 and 267-294): either the produced result dict or a raised
exception message. -/
inductive PipeOutcome where
  | ok (r : RagResult)
  | raises (msg : String)

/-- The single mutation `result['evaluation'] = evaluation`
(`src/evaluate_light.py` lines 253 and 288). -/
def attachEval (r : RagResult) (ev : EvaluationResult) : RagResult :=
  RagResult.mk r.answer r.context r.latency r.num_chunks (some ev)

/-- One pipeline try/except block of `evaluate_single_question`: on success
the result dict, with the judge evaluation attached unless `skip_judge`; on a
raised exception the presenter prints the error and the variable is `None`.
The judge itself (`LightRAGEvaluator.judge_response`) catches all its own
exceptions and returns a record, so only the pipeline run can raise. -/
def runPipelineBlock (run : PipeOutcome) (skipJudge : Bool)
    (judgeEval : RagResult → EvaluationResult) : Option RagResult :=
  match run with
  | PipeOutcome.ok r =>
    some (if skipJudge then r else attachEval r (judgeEval r))
  | PipeOutcome.raises _ => none

/-- `LightRAGEvaluator.evaluate_single_question`, `src/evaluate_light.py`
lines 219-315, for a question found in the config: the two pipelines run in
independent try/except blocks (a manual-pipeline exception does not stop the
file-search block), and the report dict is built and handed to
`report_generator.save_result` unconditionally.  `judgeM` / `judgeF` model
the two `self.judge_response(...)` calls. -/
def evaluate_single_question (manualRun fsRun : PipeOutcome)
    (judgeM judgeF : RagResult → EvaluationResult) (skipJudge : Bool)
    (question_id : Nat) (question category timestamp : String) :
    QuestionReport :=
  QuestionReport.mk question_id question category timestamp
    (runPipelineBlock manualRun skipJudge judgeM)
    (runPipelineBlock fsRun skipJudge judgeF)

/-- The separator marker counted by `ConsolePresenter.print_judge_info`
(`src/console_presenter.py` line 90). -/
def markerChars : List Char :=
  "--- CHUNK SEPARATOR ---".data

/-- The join separator of `src/evaluate_light.py` lines 244 and 279, written
with its surrounding blank lines. -/
def sepChars : List Char :=
  '\n' :: '\n' :: (markerChars ++ ['\n', '\n'])

/-- Python `sep.join(chunks)`. -/
def pyJoin (sep : List Char) : List (List Char) → List Char
  | [] => []
  | [x] => x
  | x :: y :: t => x ++ sep ++ pyJoin sep (y :: t)

/-- Fuel-indexed Python `hay.count(needle)`: number of non-overlapping
occurrences, scanned greedily from the left.  The fuel argument only makes
the recursion structural; `countOcc` instantiates it with `hay.length`. -/
def countOccF (needle : List Char) : Nat → List Char → Nat
  | _, [] => 0
  | 0, _ :: _ => 0
  | fuel + 1, c :: rest =>
    if needle ≠ [] ∧ needle <+: (c :: rest) then
      1 + countOccF needle fuel (rest.drop (needle.length - 1))
    else countOccF needle fuel rest

/-- Python `hay.count(needle)` for a non-empty needle. -/
def countOcc (needle hay : List Char) : Nat :=
  countOccF needle hay.length hay

/-- The joined context string sent to the judge (`src/evaluate_light.py`
lines 244 and 279): at most the first five chunks, joined by the separator. -/
def joinedContext (chunks : List (List Char)) : List Char :=
  pyJoin sepChars (chunks.take 5)

/-- The chunk-count diagnostic of `ConsolePresenter.print_judge_info`
(`src/console_presenter.py` line 90):
`context_str.count("--- CHUNK SEPARATOR ---") + 1`. -/
def printedChunkCount (ctx : List Char) : Nat :=
  countOcc markerChars ctx + 1

/-- Modelled from the spec (the section-3 EvaluationResult invariant, used
only to state claim C1): a record is claimed to be either a success record —
all five criteria present with scores in 1..5 and no `error` key — or a
failure record — `error` present and all five criteria present with score
0.  This predicate follows the spec's words, not the source. -/
def specTwoStateInvariant (e : EvaluationResult) : Bool :=
  (e.error.isNone
     && (criteriaList e).all (fun o =>
          match o with
          | some c => 1 ≤ c.score && c.score ≤ 5
          | none => false))
  || (e.error.isSome
     && (criteriaList e).all (fun o =>
          match o with
          | some c => c.score == 0
          | none => false))

/-- Sample criterion entry with score 4, for concrete instances. -/
def sampleScore4 : CriterionScore :=
  ⟨4, "bom"⟩

/-- Sample criterion entry with score 5, for concrete instances. -/
def sampleScore5 : CriterionScore :=
  ⟨5, "ótimo"⟩

/-- Sample error-free evaluation with all five criteria scored 4. -/
def sampleEval4 : EvaluationResult :=
  ⟨some sampleScore4, some sampleScore4, some sampleScore4, some sampleScore4,
   some sampleScore4, some "resumo", none, none⟩

/-- Sample error-free evaluation with all five criteria scored 5. -/
def sampleEval5 : EvaluationResult :=
  ⟨some sampleScore5, some sampleScore5, some sampleScore5, some sampleScore5,
   some sampleScore5, some "resumo", none, none⟩

/-- Sample pipeline result whose judge evaluation is the exhaustion failure
record (the state reached after the judge ran out of retries). -/
def failRag : RagResult :=
  ⟨"resposta", [], 0, 0, some exhaustionRecord⟩

/-- Sample pipeline result with an error-free all-fours evaluation. -/
def okRag4 : RagResult :=
  ⟨"resposta", [], 0, 0, some sampleEval4⟩

/-- Sample pipeline result with an error-free all-fives evaluation. -/
def okRag5 : RagResult :=
  ⟨"resposta", [], 0, 0, some sampleEval5⟩

/- Fuel irrelevance: `countOccF` does not depend on the fuel once the fuel
covers the hay length. -/
theorem countOccF_congr (needle : List Char) :
    ∀ (f₁ f₂ : Nat) (hay : List Char), hay.length ≤ f₁ → hay.length ≤ f₂ →
      countOccF needle f₁ hay = countOccF needle f₂ hay := by
  intro f₁
  induction f₁ with
  | zero =>
    intro f₂ hay h₁ _
    have : hay = [] := List.eq_nil_of_length_eq_zero (Nat.le_zero.mp h₁)
    subst this
    cases f₂ <;> rfl
  | succ f ih =>
    intro f₂ hay h₁ h₂
    cases hay with
    | nil => cases f₂ <;> rfl
    | cons c rest =>
      cases f₂ with
      | zero => simp at h₂
      | succ g =>
        simp only [countOccF]
        by_cases hc : needle ≠ [] ∧ needle <+: (c :: rest)
        · rw [if_pos hc, if_pos hc]
          have hl₁ : (rest.drop (needle.length - 1)).length ≤ f := by
            simp only [List.length_drop]
            simp only [List.length_cons] at h₁
            omega
          have hl₂ : (rest.drop (needle.length - 1)).length ≤ g := by
            simp only [List.length_drop]
            simp only [List.length_cons] at h₂
            omega
          rw [ih g _ hl₁ hl₂]
        · rw [if_neg hc, if_neg hc]
          have hr₁ : rest.length ≤ f := by
            simp only [List.length_cons] at h₁; omega
          have hr₂ : rest.length ≤ g := by
            simp only [List.length_cons] at h₂; omega
          exact ih g rest hr₁ hr₂

/- Unfolding equation for `countOcc` on a cons cell. -/
theorem countOcc_cons (needle : List Char) (c : Char) (rest : List Char) :
    countOcc needle (c :: rest)
      = if needle ≠ [] ∧ needle <+: (c :: rest) then
          1 + countOcc needle (rest.drop (needle.length - 1))
        else countOcc needle rest := by
  unfold countOcc
  simp only [List.length_cons, countOccF]
  by_cases hc : needle ≠ [] ∧ needle <+: (c :: rest)
  · rw [if_pos hc, if_pos hc]
    have h1 : (rest.drop (needle.length - 1)).length ≤ rest.length := by
      simp only [List.length_drop]; omega
    rw [countOccF_congr needle rest.length _ _ h1 le_rfl]
  · rw [if_neg hc, if_neg hc]

/- A needle that is not an infix of the hay is counted zero times. -/
theorem countOcc_eq_zero (needle : List Char) :
    ∀ (s : List Char), ¬ needle <:+: s → countOcc needle s = 0 := by
  intro s
  induction s with
  | nil => intro _; rfl
  | cons c t ih =>
    intro hi
    rw [countOcc_cons, if_neg]
    · exact ih (fun h => hi (List.infix_cons h))
    · rintro ⟨-, hp⟩
      exact hi ( List.IsPrefix.isInfix hp)

/- Scanning may skip a head cell at which the needle does not match. -/
theorem countOcc_cons_of_no_match (needle : List Char) (c : Char)
    (t : List Char) (h : ¬ needle <+: (c :: t)) :
    countOcc needle (c :: t) = countOcc needle t := by
  rw [countOcc_cons, if_neg]
  rintro ⟨-, hp⟩
  exact h hp

/- A newline-free needle cannot match anywhere inside a marker-free prefix
followed by a newline: the scan walks straight to the newline. -/
theorem countOcc_append_newline (needle : List Char) (hnl : '\n' ∉ needle) :
    ∀ (s₁ s₂ : List Char), ¬ needle <:+: s₁ →
      countOcc needle (s₁ ++ '\n' :: s₂) = countOcc needle ('\n' :: s₂) := by
  intro s₁
  induction s₁ with
  | nil => intro s₂ _; rfl
  | cons c t ih =>
    intro s₂ hi
    rw [List.cons_append, countOcc_cons, if_neg]
    · exact ih s₂ (fun h => hi (List.infix_cons h))
    · rintro ⟨hne, hp⟩
      rw [← List.cons_append] at hp
      rcases List.prefix_or_prefix_of_prefix hp
          (List.prefix_append (c :: t) ('\n' :: s₂)) with h | h
      · exact hi ( List.IsPrefix.isInfix h)
      · obtain ⟨u, hu⟩ := h
        cases u with
        | nil =>
          rw [List.append_nil] at hu
          exact hi (hu ▸ List.infix_refl (c :: t))
        | cons x u' =>
          have hthis := hp
          rw [← hu] at hthis
          have h2 : x = '\n' ∧ u' <+: s₂ := by simpa using hthis
          apply hnl
          rw [← hu, h2.1]
          simp

/- The needle occurring literally at the head is counted once, and scanning
resumes right after it. -/
theorem countOcc_self_append (needle rest : List Char) (hne : needle ≠ []) :
    countOcc needle (needle ++ rest) = 1 + countOcc needle rest := by
  cases needle with
  | nil => exact absurd rfl hne
  | cons n nt =>
    rw [List.cons_append, countOcc_cons, if_pos]
    · have hd : (nt ++ rest).drop ((n :: nt).length - 1) = rest := by
        simp only [List.length_cons, Nat.add_sub_cancel]
        exact List.drop_left nt rest
      rw [hd]
    · exact ⟨by simp, ⟨rest, by simp⟩⟩

/- The marker never matches starting at a newline (its first character is a
dash). -/
theorem marker_no_match_at_newline (t : List Char) :
    ¬ markerChars <+: ('\n' :: t) := by
  rintro ⟨u, hu⟩
  rw [show markerChars = '-' :: "-- CHUNK SEPARATOR ---".data from rfl,
    List.cons_append] at hu
  injection hu with h1 _
  exact absurd h1 (by decide)

/- Occurrence count of the marker in the Python join of marker-free chunks:
one occurrence per separator. -/
theorem countOcc_marker_pyJoin :
    ∀ (chunks : List (List Char)), chunks ≠ [] →
      (∀ c ∈ chunks, ¬ markerChars <:+: c) →
      countOcc markerChars (pyJoin sepChars chunks) = chunks.length - 1 := by
  intro chunks
  induction chunks with
  | nil => intro h; exact absurd rfl h
  | cons c cs ih =>
    intro _ hmem
    cases cs with
    | nil =>
      simp only [pyJoin, List.length_cons, List.length_nil]
      exact countOcc_eq_zero _ _ (hmem c (List.mem_cons_self _ _))
    | cons c' cs' =>
      have hjoin : pyJoin sepChars (c :: c' :: cs')
          = c ++ sepChars ++ pyJoin sepChars (c' :: cs') := rfl
      rw [hjoin]
      have hshape : c ++ sepChars ++ pyJoin sepChars (c' :: cs')
          = c ++ '\n' :: ('\n'
              :: (markerChars ++ '\n' :: '\n' :: pyJoin sepChars (c' :: cs'))) := by
        simp [sepChars, List.append_assoc]
      rw [hshape]
      rw [countOcc_append_newline markerChars (by decide) c _
        (hmem c (List.mem_cons_self _ _))]
      rw [countOcc_cons_of_no_match _ _ _ (marker_no_match_at_newline _)]
      rw [countOcc_cons_of_no_match _ _ _ (marker_no_match_at_newline _)]
      rw [countOcc_self_append _ _ (by decide)]
      rw [countOcc_cons_of_no_match _ _ _ (marker_no_match_at_newline _)]
      rw [countOcc_cons_of_no_match _ _ _ (marker_no_match_at_newline _)]
      rw [ih (by simp) (fun x hx => hmem x (List.mem_cons_of_mem c hx))]
      simp only [List.length_cons]
      omega

/- One-step unfolding of the loop on a transient exception with retries
left: one more call, one sleep of the current delay, the delay doubles. -/
theorem judgeGo_succ_exn (parse : String → Option EvaluationResult)
    (outcomes : Nat → AttemptOutcome) (a r d : Nat) (msg : String)
    (ho : outcomes a = AttemptOutcome.exn msg)
    (ht : isTransientError msg = true) (hr : 0 < r) :
    judgeGo parse outcomes a (r + 1) d
      = ((judgeGo parse outcomes (a + 1) r (d * 2)).1,
         (judgeGo parse outcomes (a + 1) r (d * 2)).2.1 + 1,
         (judgeGo parse outcomes (a + 1) r (d * 2)).2.2 + d) := by
  simp [judgeGo, ho, ht, hr]

/- Running the loop through a block of `n` consecutive transient failures:
`n` extra calls are made, the delay doubles each time, and
`d * (2 ^ n - 1)` extra seconds are slept. -/
theorem judgeGo_skip (parse : String → Option EvaluationResult)
    (outcomes : Nat → AttemptOutcome) :
    ∀ (n a d m : Nat),
      (∀ i, i < n → attemptIsTransientFailure (outcomes (a + i)) = true) →
      judgeGo parse outcomes a (n + (m + 1)) d
        = ((judgeGo parse outcomes (a + n) (m + 1) (d * 2 ^ n)).1,
           (judgeGo parse outcomes (a + n) (m + 1) (d * 2 ^ n)).2.1 + n,
           (judgeGo parse outcomes (a + n) (m + 1) (d * 2 ^ n)).2.2
             + d * (2 ^ n - 1)) := by
  intro n
  induction n with
  | zero =>
    intro a d m _
    simp
  | succ k ih =>
    intro a d m h
    have h0 : attemptIsTransientFailure (outcomes a) = true := by
      simpa using h 0 (Nat.succ_pos k)
    have hstep : k + 1 + (m + 1) = (k + (m + 1)) + 1 := by omega
    rw [hstep]
    cases ho : outcomes a with
    | success text =>
      rw [ho] at h0
      simp [attemptIsTransientFailure] at h0
    | exn msg =>
      rw [ho] at h0
      simp only [attemptIsTransientFailure] at h0
      rw [judgeGo_succ_exn parse outcomes a (k + (m + 1)) d msg ho h0
        (by omega)]
      have ihapp := ih (a + 1) (d * 2) m (by
        intro i hi
        have hh := h (i + 1) (by omega)
        rw [show a + (i + 1) = a + 1 + i by omega] at hh
        exact hh)
      rw [ihapp]
      have he₁ : a + 1 + k = a + (k + 1) := by omega
      have he₂ : d * 2 * 2 ^ k = d * 2 ^ (k + 1) := by
        rw [pow_succ]; ring
      rw [he₁, he₂]
      have hp : 1 ≤ 2 ^ k := Nat.one_le_two_pow
      obtain ⟨q, hq⟩ : ∃ q, 2 ^ k = q + 1 := ⟨2 ^ k - 1, by omega⟩
      have hs : d * 2 * (2 ^ k - 1) + d = d * (2 ^ (k + 1) - 1) := by
        rw [pow_succ, hq]
        have e1 : q + 1 - 1 = q := by omega
        have e2 : (q + 1) * 2 - 1 = 2 * q + 1 := by omega
        rw [e1, e2]
        ring
      simp only [Prod.mk.injEq, true_and]
      refine ⟨by omega, ?_⟩
      rw [Nat.add_assoc, hs]

/-- C8: if no model is supplied to the judge call and no default model can be
resolved from the config file or the environment, `judge_response` raises the
configuration `ValueError` before making any model call: zero `completion`
calls, zero seconds slept, no retry consumed. -/
theorem claim_C8_no_model_fails_fast
    (parse : String → Option EvaluationResult)
    (outcomes : Nat → AttemptOutcome) (max_retries : Nat) :
    judge_response none none none parse outcomes max_retries
      = ⟨Except.error noModelMsg, 0, 0⟩ := rfl

/-- C2: whenever the transport succeeds but the fence-stripped payload fails
strict JSON parsing, `judge_response` returns immediately — the record has
`error = "invalid_json"` and `raw_response` equal to the cleaned text, exactly
one `completion` call is made and nothing is slept, for every
`max_retries ≥ 1`; moreover from any loop state (second conjunct) a malformed
delivered response terminates the loop at once, so this branch never
retries. -/
theorem claim_C2_invalid_json_no_retry
    (parse : String → Option EvaluationResult)
    (outcomes : Nat → AttemptOutcome) (max_retries : Nat)
    (m : String) (cfg env : Option String) (text : String)
    (hret : 1 ≤ max_retries)
    (hout : outcomes 0 = AttemptOutcome.success text)
    (hparse : parse (cleanResponse text) = none) :
    judge_response (some m) cfg env parse outcomes max_retries
      = ⟨Except.ok (invalidJsonRecord (cleanResponse text)), 1, 0⟩
    ∧ (invalidJsonRecord (cleanResponse text)).error = some "invalid_json"
    ∧ (invalidJsonRecord (cleanResponse text)).raw_response
        = some (cleanResponse text)
    ∧ ∀ (a r d : Nat), outcomes a = AttemptOutcome.success text →
        judgeGo parse outcomes a (r + 1) d
          = (invalidJsonRecord (cleanResponse text), 1, 0) := by
  obtain ⟨k, rfl⟩ : ∃ k, max_retries = k + 1 :=
    ⟨max_retries - 1, by omega⟩
  refine ⟨?_, rfl, rfl, ?_⟩
  · simp [judge_response, judgeGo, hout, hparse]
  · intro a r d ha
    simp [judgeGo, ha, hparse]

/-- Witness for C2 at a concrete input, also exercising the mid-loop
immediate-return conjunct. -/
theorem claim_C2_witness :
    judge_response (some "gemini") none none
        (fun _ => none) (fun _ => AttemptOutcome.success "not json") 7
      = ⟨Except.ok (invalidJsonRecord "not json"), 1, 0⟩
    ∧ judgeGo (fun _ => none) (fun _ => AttemptOutcome.success "not json")
        4 6 9
      = (invalidJsonRecord "not json", 1, 0) :=
  ⟨(claim_C2_invalid_json_no_retry (fun _ => none)
      (fun _ => AttemptOutcome.success "not json") 7 "gemini" none none
      "not json" (by omega) rfl rfl).1,
   (claim_C2_invalid_json_no_retry (fun _ => none)
      (fun _ => AttemptOutcome.success "not json") 7 "gemini" none none
      "not json" (by omega) rfl rfl).2.2.2 4 5 9 rfl⟩

/-- C3: with `max_retries ≥ 1`, transient-overload failures (message
containing "503" or, case-insensitively, "overloaded") on each of the first
`max_retries - 1` attempts followed by a successfully parsed response on the
last attempt make `judge_response` return the parsed object after exactly
`max_retries` calls, having slept `5 * (2 ^ (max_retries - 1) - 1)` seconds
in total (the delay starts at 5 and doubles after each sleep). -/
theorem claim_C3_backoff_then_success
    (parse : String → Option EvaluationResult)
    (outcomes : Nat → AttemptOutcome) (max_retries : Nat)
    (m : String) (cfg env : Option String) (text : String)
    (ev : EvaluationResult)
    (hret : 1 ≤ max_retries)
    (hfail : ∀ i, i < max_retries - 1 →
      attemptIsTransientFailure (outcomes i) = true)
    (hlast : outcomes (max_retries - 1) = AttemptOutcome.success text)
    (hparse : parse (cleanResponse text) = some ev) :
    judge_response (some m) cfg env parse outcomes max_retries
      = ⟨Except.ok ev, max_retries, 5 * (2 ^ (max_retries - 1) - 1)⟩ := by
  obtain ⟨k, rfl⟩ : ∃ k, max_retries = k + 1 :=
    ⟨max_retries - 1, by omega⟩
  simp only [Nat.add_sub_cancel] at hfail hlast
  have hskip := judgeGo_skip parse outcomes k 0 5 0 (by
    intro i hi
    simpa using hfail i hi)
  have hy : judgeGo parse outcomes (0 + k) (0 + 1) (5 * 2 ^ k)
      = (ev, 1, 0) := by
    simp only [Nat.zero_add]
    simp [judgeGo, hlast, hparse]
  simp only [judge_response]
  rw [show k + 1 = k + (0 + 1) from rfl, hskip, hy]
  dsimp only
  congr 1 <;> first | omega | simp

/-- Witness for C3 at a concrete input: two transient failures, then a
parseable response, with `max_retries = 3`: fifteen seconds slept in total
(5 then 10). -/
theorem claim_C3_witness :
    judge_response (some "gemini") none none
        (fun s => if s = "ok" then some exhaustionRecord else none)
        (fun i => if i < 2 then AttemptOutcome.exn "503 UNAVAILABLE"
                  else AttemptOutcome.success "ok") 3
      = ⟨Except.ok exhaustionRecord, 3, 15⟩ :=
  claim_C3_backoff_then_success
    (fun s => if s = "ok" then some exhaustionRecord else none)
    (fun i => if i < 2 then AttemptOutcome.exn "503 UNAVAILABLE"
              else AttemptOutcome.success "ok") 3 "gemini" none none
    "ok" exhaustionRecord (by omega) (by decide) rfl rfl

/-- C4: with `max_retries ≥ 1`, if every attempt raises a transient-overload
failure then `judge_response` makes exactly `max_retries` calls, raises
nothing (the result is an `Except.ok`), and returns the canonical exhaustion
record, whose `error` is the generic exhaustion message and whose five
criteria all carry score 0. -/
theorem claim_C4_exhaustion_record
    (parse : String → Option EvaluationResult)
    (outcomes : Nat → AttemptOutcome) (max_retries : Nat)
    (m : String) (cfg env : Option String)
    (hret : 1 ≤ max_retries)
    (hfail : ∀ i, i < max_retries →
      attemptIsTransientFailure (outcomes i) = true) :
    judge_response (some m) cfg env parse outcomes max_retries
      = ⟨Except.ok exhaustionRecord, max_retries,
         5 * (2 ^ (max_retries - 1) - 1)⟩
    ∧ exhaustionRecord.error = some "Falha após todas as tentativas"
    ∧ criteriaList exhaustionRecord
        = [some zeroScore, some zeroScore, some zeroScore, some zeroScore,
           some zeroScore]
    ∧ zeroScore.score = 0 := by
  obtain ⟨k, rfl⟩ : ∃ k, max_retries = k + 1 :=
    ⟨max_retries - 1, by omega⟩
  refine ⟨?_, rfl, rfl, rfl⟩
  have hskip := judgeGo_skip parse outcomes k 0 5 0 (by
    intro i hi
    simpa using hfail i (by omega))
  have hk : attemptIsTransientFailure (outcomes k) = true :=
    hfail k (by omega)
  have hy : judgeGo parse outcomes (0 + k) (0 + 1) (5 * 2 ^ k)
      = (exhaustionRecord, 1, 0) := by
    simp only [Nat.zero_add]
    cases ho : outcomes k with
    | success text =>
      rw [ho] at hk
      simp [attemptIsTransientFailure] at hk
    | exn msg =>
      rw [ho] at hk
      simp only [attemptIsTransientFailure] at hk
      simp [judgeGo, ho, hk]
  simp only [judge_response, Nat.add_sub_cancel]
  rw [show k + 1 = k + (0 + 1) from rfl, hskip, hy]
  dsimp only
  congr 1 <;> first | omega | simp

/-- Witness for C4 at a concrete input: two transient failures with
`max_retries = 2`: two calls, five seconds slept, exhaustion record. -/
theorem claim_C4_witness :
    judge_response (some "gemini") none none (fun _ => none)
        (fun _ => AttemptOutcome.exn "model is Overloaded") 2
      = ⟨Except.ok exhaustionRecord, 2, 5⟩ :=
  (claim_C4_exhaustion_record (fun _ => none)
    (fun _ => AttemptOutcome.exn "model is Overloaded") 2 "gemini" none none
    (by omega) (by decide)).1

/-- C1 (counterexample): the record the judge returns for a delivered but
unparseable payload carries `error = "invalid_json"` yet none of the five
criterion keys, so it is in neither of the two states the claimed invariant
allows — `error` is present without all five criteria at score 0. -/
theorem claim_C1_counterexample :
    (judge_response (some "gemini") none none (fun _ => none)
        (fun _ => AttemptOutcome.success "nope") 3).result
      = Except.ok (invalidJsonRecord "nope")
    ∧ specTwoStateInvariant (invalidJsonRecord "nope") = false
    ∧ (invalidJsonRecord "nope").error = some "invalid_json"
    ∧ (invalidJsonRecord "nope").factual_consistency = none := by
  exact ⟨rfl, rfl, rfl, rfl⟩

/-- C1 (amended): every record produced by the judge loop is in exactly one
of three states — the parsed model object returned as-is (with no validation
of criterion presence or score range), the invalid-JSON record in which
`error = "invalid_json"` and `raw_response` are present but the five
criterion keys are all absent, or the exhaustion record in which `error` is
present and all five criteria carry score 0. -/
theorem claim_C1_amended_three_states
    (parse : String → Option EvaluationResult)
    (outcomes : Nat → AttemptOutcome) :
    ∀ (n a d : Nat),
      ((∃ s, parse s = some (judgeGo parse outcomes a n d).1)
        ∨ (∃ s, (judgeGo parse outcomes a n d).1 = invalidJsonRecord s)
        ∨ (judgeGo parse outcomes a n d).1 = exhaustionRecord)
      ∧ (∀ s, (invalidJsonRecord s).error = some "invalid_json"
          ∧ (invalidJsonRecord s).raw_response = some s
          ∧ criteriaList (invalidJsonRecord s) = [none, none, none, none, none])
      ∧ exhaustionRecord.error = some "Falha após todas as tentativas"
      ∧ criteriaList exhaustionRecord
          = [some zeroScore, some zeroScore, some zeroScore, some zeroScore,
             some zeroScore]
      ∧ zeroScore.score = 0 := by
  intro n
  induction n with
  | zero =>
    intro a d
    exact ⟨Or.inr (Or.inr rfl), fun s => ⟨rfl, rfl, rfl⟩, rfl, rfl, rfl⟩
  | succ r ih =>
    intro a d
    refine ⟨?_, fun s => ⟨rfl, rfl, rfl⟩, rfl, rfl, rfl⟩
    cases ho : outcomes a with
    | success text =>
      cases hp : parse (cleanResponse text) with
      | some ev =>
        left
        refine ⟨cleanResponse text, ?_⟩
        simp [judgeGo, ho, hp]
      | none =>
        right; left
        refine ⟨cleanResponse text, ?_⟩
        simp [judgeGo, ho, hp]
    | exn msg =>
      by_cases ht : isTransientError msg = true
      · by_cases hr : 0 < r
        · rw [judgeGo_succ_exn parse outcomes a r d msg ho ht hr]
          exact (ih (a + 1) (d * 2)).1
        · have hr0 : r = 0 := by omega
          subst hr0
          right; right
          simp [judgeGo, ho, ht]
      · right; right
        have ht' : isTransientError msg = false := by
          cases hb : isTransientError msg with
          | false => rfl
          | true => exact absurd hb ht
        simp [judgeGo, ho, ht']

/-- C5 (counterexample): `ConsolePresenter.print_score_comparison` — one of
the two score-comparison renderers the claim covers — never checks the
`error` key: fed two exhaustion failure records (which carry `error` and
zero-sentinel scores) it still prints all five comparison rows, so comparison
output is produced although both records carry an `error` key. -/
theorem claim_C5_counterexample :
    (failRag.evaluation.getD emptyEval).error.isSome = true
    ∧ consoleScoreComparisonRows failRag failRag
        = [("factual_consistency", 0, 0, 0), ("instruction_following", 0, 0, 0),
           ("domain_knowledge", 0, 0, 0), ("context_precision", 0, 0, 0),
           ("context_recall", 0, 0, 0)]
    ∧ consoleScoreComparisonRows failRag failRag ≠ [] := by
  refine ⟨rfl, rfl, ?_⟩
  decide

/-- C5 (amended): the markdown comparison section produces no output when
either evaluation record carries an `error` key, and otherwise its rows carry
the signed difference `file_search.score - manual.score` for each of the five
criteria (0 meaning a tie); the console score comparison produces the same
signed differences for every criterion scored on both sides but does not
check for `error` keys, so it also prints rows for zero-sentinel failure
records. -/
theorem claim_C5_amended_comparison
    (manual file_search : RagResult) (me fe : EvaluationResult)
    (a1 a2 a3 a4 a5 b1 b2 b3 b4 b5 : CriterionScore) :
    (((manual.evaluation.getD emptyEval).error.isSome
        || (file_search.evaluation.getD emptyEval).error.isSome) = true →
      buildComparisonSection manual file_search = "")
    ∧ (me.factual_consistency = some a1 → me.instruction_following = some a2 →
       me.domain_knowledge = some a3 → me.context_precision = some a4 →
       me.context_recall = some a5 →
       fe.factual_consistency = some b1 → fe.instruction_following = some b2 →
       fe.domain_knowledge = some b3 → fe.context_precision = some b4 →
       fe.context_recall = some b5 →
       comparisonRows me fe
         = [("Consistência Factual", a1.score, b1.score, b1.score - a1.score),
            ("Seguir Instruções", a2.score, b2.score, b2.score - a2.score),
            ("Conhecimento Jurídico", a3.score, b3.score, b3.score - a3.score),
            ("Precisão do Contexto", a4.score, b4.score, b4.score - a4.score),
            ("Cobertura do Contexto", a5.score, b5.score, b5.score - a5.score)])
    ∧ (manual.evaluation = some me → file_search.evaluation = some fe →
       me.factual_consistency = some a1 → me.instruction_following = some a2 →
       me.domain_knowledge = some a3 → me.context_precision = some a4 →
       me.context_recall = some a5 →
       fe.factual_consistency = some b1 → fe.instruction_following = some b2 →
       fe.domain_knowledge = some b3 → fe.context_precision = some b4 →
       fe.context_recall = some b5 →
       consoleScoreComparisonRows manual file_search
         = [("factual_consistency", a1.score, b1.score, b1.score - a1.score),
            ("instruction_following", a2.score, b2.score, b2.score - a2.score),
            ("domain_knowledge", a3.score, b3.score, b3.score - a3.score),
            ("context_precision", a4.score, b4.score, b4.score - a4.score),
            ("context_recall", a5.score, b5.score, b5.score - a5.score)]) := by
  refine ⟨?_, ?_, ?_⟩
  · intro h
    simp [buildComparisonSection, h]
  · intro h1 h2 h3 h4 h5 h6 h7 h8 h9 h10
    simp [comparisonRows, criteriaKeys, getCrit, critLabel,
      h1, h2, h3, h4, h5, h6, h7, h8, h9, h10]
  · intro hm hf h1 h2 h3 h4 h5 h6 h7 h8 h9 h10
    simp [consoleScoreComparisonRows, criteriaKeys, getCrit, critName, hm, hf,
      h1, h2, h3, h4, h5, h6, h7, h8, h9, h10]

/-- Witness for C5 (amended) at concrete inputs: a failure record suppresses
the markdown section; all-fours versus all-fives evaluations produce the five
`+1` differences in both renderers. -/
theorem claim_C5_witness :
    buildComparisonSection failRag okRag5 = ""
    ∧ comparisonRows sampleEval4 sampleEval5
        = [("Consistência Factual", 4, 5, 1), ("Seguir Instruções", 4, 5, 1),
           ("Conhecimento Jurídico", 4, 5, 1), ("Precisão do Contexto", 4, 5, 1),
           ("Cobertura do Contexto", 4, 5, 1)]
    ∧ consoleScoreComparisonRows okRag4 okRag5
        = [("factual_consistency", 4, 5, 1), ("instruction_following", 4, 5, 1),
           ("domain_knowledge", 4, 5, 1), ("context_precision", 4, 5, 1),
           ("context_recall", 4, 5, 1)] := by
  have h := claim_C5_amended_comparison okRag4 okRag5 sampleEval4 sampleEval5
    sampleScore4 sampleScore4 sampleScore4 sampleScore4 sampleScore4
    sampleScore5 sampleScore5 sampleScore5 sampleScore5 sampleScore5
  refine ⟨(claim_C5_amended_comparison failRag okRag5 sampleEval4 sampleEval5
    sampleScore4 sampleScore4 sampleScore4 sampleScore4 sampleScore4
    sampleScore5 sampleScore5 sampleScore5 sampleScore5 sampleScore5).1
      (by decide), ?_, ?_⟩
  · rw [h.2.1 rfl rfl rfl rfl rfl rfl rfl rfl rfl rfl]
    decide
  · rw [h.2.2 rfl rfl rfl rfl rfl rfl rfl rfl rfl rfl rfl rfl]
    decide

/-- C6 (counterexample): the sanitization in `evaluate_light.judge_response`
(also cited by the claim) slices `[7:-3]` unconditionally: on text with a
leading JSON fence and no trailing fence the enclosed content `abc` is
destroyed (the result is empty), so sanitization does lose final
characters. -/
theorem claim_C6_counterexample :
    stripFencesLight "```jsonabc" = ""
    ∧ pyDrop 7 "```jsonabc" = "abc"
    ∧ pyEndsWith "```" (pyDrop 7 "```jsonabc") = false
    ∧ stripFencesLight "```jsonabc" ≠ pyDrop 7 "```jsonabc" := by
  refine ⟨rfl, rfl, rfl, ?_⟩
  decide

/- A string that starts with the tagged fence also starts with the bare
fence. -/
theorem pyStartsWith_json_imp_bare (s : String)
    (h : pyStartsWith "```json" s = true) : pyStartsWith "```" s = true := by
  unfold pyStartsWith at h ⊢
  rw [ List.isPrefixOf_iff_prefix] at h ⊢
  exact List.IsPrefix.trans (by decide) h

/- Python slicing facts for a leading tagged fence. -/
theorem pyDrop_json_append (body : String) :
    pyDrop 7 ("```json" ++ body) = body := by
  unfold pyDrop
  rw [String.data_append]
  rw [List.drop_left' (by rfl)]

/- Appending the tagged fence always passes the startswith test. -/
theorem pyStartsWith_json_append (body : String) :
    pyStartsWith "```json" ("```json" ++ body) = true := by
  unfold pyStartsWith
  rw [String.data_append, List.isPrefixOf_iff_prefix]
  exact List.prefix_append _ _

/- Appending the untagged fence always passes its startswith test. -/
theorem pyStartsWith_bare_append (body : String) :
    pyStartsWith "```" ("```" ++ body) = true := by
  unfold pyStartsWith
  rw [String.data_append, List.isPrefixOf_iff_prefix]
  exact List.prefix_append _ _

/- Python slicing fact for a leading untagged fence. -/
theorem pyDrop_bare_append (body : String) :
    pyDrop 3 ("```" ++ body) = body := by
  unfold pyDrop
  rw [String.data_append]
  rw [List.drop_left' (by rfl)]

/- An untagged fence followed by a body that does not itself start with
"json" fails the tagged-fence test, so the bare-fence branch is taken. -/
theorem pyStartsWith_json_of_bare (body : String)
    (h : pyStartsWith "json" body = false) :
    pyStartsWith "```json" ("```" ++ body) = false := by
  cases hb : pyStartsWith "```json" ("```" ++ body) with
  | false => rfl
  | true =>
    exfalso
    unfold pyStartsWith at hb
    rw [String.data_append, List.isPrefixOf_iff_prefix] at hb
    rw [show ("```json" : String).data
        = ("```" : String).data ++ ("json" : String).data from rfl] at hb
    have hj : ("json" : String).data <+: body.data :=
      (List.prefix_append_right_inj _).mp hb
    have hj' : pyStartsWith "json" body = true := by
      unfold pyStartsWith
      rw [List.isPrefixOf_iff_prefix]
      exact hj
    rw [hj'] at h
    exact absurd h (by simp)

/-- C6 (amended): the sanitization in `ai_judge.judge_response` strips one
leading fence — JSON-tagged or untagged — and at most one trailing fence when
each is present and leaves the enclosed content otherwise unchanged — in
particular, with a leading fence of either form and no trailing fence no
final characters are lost; the sanitization in
`evaluate_light.judge_response`, however, removes the final three characters
unconditionally whenever a leading fence of either form is present, so there
text with a leading fence and no trailing fence loses its last three
characters. -/
theorem claim_C6_amended_fence_stripping (body s : String) :
    (pyEndsWith "```" body = false →
      stripFences ("```json" ++ body) = body)
    ∧ (pyEndsWith "```" body = true →
      stripFences ("```json" ++ body) = pyDropRight 3 body)
    ∧ stripFencesLight ("```json" ++ body) = pyDropRight 3 body
    ∧ (pyStartsWith "json" body = false →
        (pyEndsWith "```" body = false → stripFences ("```" ++ body) = body)
        ∧ (pyEndsWith "```" body = true →
            stripFences ("```" ++ body) = pyDropRight 3 body)
        ∧ stripFencesLight ("```" ++ body) = pyDropRight 3 body)
    ∧ (pyStartsWith "```" s = false → stripFences s = s ∧ stripFencesLight s = s) := by
  refine ⟨?_, ?_, ?_, ?_, ?_⟩
  · intro hnf
    unfold stripFences
    rw [if_pos (pyStartsWith_json_append body), pyDrop_json_append,
      if_neg (by rw [hnf]; exact Bool.false_ne_true)]
  · intro hf
    unfold stripFences
    rw [if_pos (pyStartsWith_json_append body), pyDrop_json_append, if_pos hf]
  · unfold stripFencesLight
    rw [if_pos (pyStartsWith_json_append body), pyDrop_json_append]
  · intro hj
    have hb0 := pyStartsWith_json_of_bare body hj
    refine ⟨?_, ?_, ?_⟩
    · intro hnf
      unfold stripFences
      rw [if_neg (by rw [hb0]; exact Bool.false_ne_true),
        if_pos (pyStartsWith_bare_append body), pyDrop_bare_append,
        if_neg (by rw [hnf]; exact Bool.false_ne_true)]
    · intro hf
      unfold stripFences
      rw [if_neg (by rw [hb0]; exact Bool.false_ne_true),
        if_pos (pyStartsWith_bare_append body), pyDrop_bare_append, if_pos hf]
    · unfold stripFencesLight
      rw [if_neg (by rw [hb0]; exact Bool.false_ne_true),
        if_pos (pyStartsWith_bare_append body), pyDrop_bare_append]
  · intro hs
    have hs7 : pyStartsWith "```json" s = false := by
      cases hb : pyStartsWith "```json" s with
      | false => rfl
      | true => rw [pyStartsWith_json_imp_bare s hb] at hs; exact absurd hs (by simp)
    constructor
    · unfold stripFences
      rw [if_neg (by rw [hs7]; exact Bool.false_ne_true),
        if_neg (by rw [hs]; exact Bool.false_ne_true)]
    · unfold stripFencesLight
      rw [if_neg (by rw [hs7]; exact Bool.false_ne_true),
        if_neg (by rw [hs]; exact Bool.false_ne_true)]

/-- Witness for C6 (amended) at concrete inputs: tagged and untagged leading
fences, each with and without a trailing fence (both sanitizers compared),
and unfenced text. -/
theorem claim_C6_witness :
    stripFences ("```json" ++ "abc") = "abc"
    ∧ stripFences ("```json" ++ "xy```") = pyDropRight 3 "xy```"
    ∧ stripFencesLight ("```json" ++ "abc") = pyDropRight 3 "abc"
    ∧ stripFences ("```" ++ "abc") = "abc"
    ∧ stripFences ("```" ++ "xy```") = pyDropRight 3 "xy```"
    ∧ stripFencesLight ("```" ++ "abc") = pyDropRight 3 "abc"
    ∧ stripFences "plain" = "plain" := by
  have h1 := claim_C6_amended_fence_stripping "abc" "plain"
  have h2 := claim_C6_amended_fence_stripping "xy```" "plain"
  exact ⟨h1.1 (by decide), h2.2.1 (by decide), h1.2.2.1,
    (h1.2.2.2.1 (by decide)).1 (by decide),
    (h2.2.2.2.1 (by decide)).2.1 (by decide),
    (h1.2.2.2.1 (by decide)).2.2,
    (h1.2.2.2.2 (by decide)).1⟩

/-- C7: when the manual pipeline raises during a single-question evaluation,
the exception is absorbed at the per-pipeline boundary: the file-search
pipeline result is populated normally (with its judge evaluation attached),
the produced report has `manual_rag` absent, and the rendered markdown — the
document handed to the persistence sink — consists of exactly the header,
the question section, the file-search section and the footer: the manual
section and the comparison section are omitted while everything else is
still produced. -/
theorem claim_C7_manual_failure_isolated
    (msg : String) (fsBase : RagResult)
    (judgeM judgeF : RagResult → EvaluationResult)
    (question_id : Nat) (question category timestamp : String)
    (fmt : Fmt) (nowStr : String) :
    evaluate_single_question (PipeOutcome.raises msg) (PipeOutcome.ok fsBase)
        judgeM judgeF false question_id question category timestamp
      = QuestionReport.mk question_id question category timestamp none
          (some (attachEval fsBase (judgeF fsBase)))
    ∧ generateMarkdownContent fmt
        (QuestionReport.mk question_id question category timestamp none
          (some (attachEval fsBase (judgeF fsBase)))) nowStr
      = joinLines
          [buildHeader fmt
             (QuestionReport.mk question_id question category timestamp none
               (some (attachEval fsBase (judgeF fsBase)))),
           buildQuestionSection
             (QuestionReport.mk question_id question category timestamp none
               (some (attachEval fsBase (judgeF fsBase)))),
           buildRagSection fmt (attachEval fsBase (judgeF fsBase))
             "🔍 File Search RAG" RagKind.fileSearch,
           buildFooter nowStr] :=
  ⟨rfl, rfl⟩

/- Splitting the final element off a newline join. -/
theorem joinLines_append_single :
    ∀ (L : List String) (x : String), L ≠ [] →
      joinLines (L ++ [x]) = joinLines L ++ "\n" ++ x := by
  intro L
  induction L with
  | nil => intro x h; exact absurd rfl h
  | cons a t ih =>
    intro x _
    cases t with
    | nil => simp [joinLines]
    | cons b t' =>
      rw [show joinLines ((a :: b :: t') ++ [x])
          = a ++ "\n" ++ joinLines ((b :: t') ++ [x]) from rfl]
      rw [ih x (by simp)]
      rw [show joinLines (a :: b :: t') = a ++ "\n" ++ joinLines (b :: t')
        from rfl]
      simp [String.append_assoc]

/- A newline join of at least two lines is never the empty string. -/
theorem joinLines_cons_cons_ne_empty (a b : String) (t : List String) :
    joinLines (a :: b :: t) ≠ "" := by
  intro h
  have hlen := congrArg String.length h
  rw [show joinLines (a :: b :: t) = a ++ "\n" ++ joinLines (b :: t)
    from rfl] at hlen
  simp only [String.length_append] at hlen
  have hone : ("\n" : String).length = 1 := rfl
  have hzero : ("" : String).length = 0 := rfl
  rw [hone, hzero] at hlen
  omega

/-- C9: report rendering is deterministic and order-stable: for every
formatting backend the rendered markdown equals the newline join of the
sections in the fixed order header, question, manual section (when the
manual result is present), file-search section (when present), comparison
section (appended when both results are present) — followed by the footer,
the only part that depends on the rendering timestamp, so rendering the same
report twice is byte-identical except for the footer timestamp; and the
comparison section is the empty string exactly when one of the two attached
evaluations carries an `error` key, so non-empty comparison output appears
only when both pipeline results are present and both evaluations are
error-free. -/
theorem claim_C9_render_deterministic_ordered (fmt : Fmt) (r : QuestionReport)
    (nowStr : String) :
    (generateMarkdownContent fmt r nowStr
      = joinLines
          ([buildHeader fmt r, buildQuestionSection r]
           ++ (match r.manual_rag with
               | some m => [buildRagSection fmt m "🔧 RAG Manual" RagKind.manual]
               | none => [])
           ++ (match r.file_search_rag with
               | some f =>
                 [buildRagSection fmt f "🔍 File Search RAG" RagKind.fileSearch]
               | none => [])
           ++ (match r.manual_rag, r.file_search_rag with
               | some m, some f => [buildComparisonSection m f]
               | _, _ => []))
        ++ "\n" ++ buildFooter nowStr)
    ∧ (∀ manual file_search : RagResult,
        buildComparisonSection manual file_search = ""
          ↔ ((manual.evaluation.getD emptyEval).error.isSome
              || (file_search.evaluation.getD emptyEval).error.isSome) = true) := by
  constructor
  · unfold generateMarkdownContent
    rw [show ([buildHeader fmt r, buildQuestionSection r]
           ++ (match r.manual_rag with
               | some m => [buildRagSection fmt m "🔧 RAG Manual" RagKind.manual]
               | none => [])
           ++ (match r.file_search_rag with
               | some f =>
                 [buildRagSection fmt f "🔍 File Search RAG" RagKind.fileSearch]
               | none => [])
           ++ (match r.manual_rag, r.file_search_rag with
               | some m, some f => [buildComparisonSection m f]
               | _, _ => [])
           ++ [buildFooter nowStr])
        = ([buildHeader fmt r, buildQuestionSection r]
           ++ (match r.manual_rag with
               | some m => [buildRagSection fmt m "🔧 RAG Manual" RagKind.manual]
               | none => [])
           ++ (match r.file_search_rag with
               | some f =>
                 [buildRagSection fmt f "🔍 File Search RAG" RagKind.fileSearch]
               | none => [])
           ++ (match r.manual_rag, r.file_search_rag with
               | some m, some f => [buildComparisonSection m f]
               | _, _ => []))
          ++ [buildFooter nowStr] by simp [List.append_assoc]]
    rw [joinLines_append_single _ _ (by simp)]
  · intro manual file_search
    constructor
    · intro h
      by_contra hc
      rw [Bool.not_eq_true, Bool.or_eq_false_iff] at hc
      unfold buildComparisonSection at h
      simp only [hc.1, hc.2, Bool.or_self, Bool.false_eq_true, if_false,
        List.cons_append] at h
      exact joinLines_cons_cons_ne_empty _ _ _ h
    · intro h
      unfold buildComparisonSection
      simp only [h, if_true]

/-- C10: the chunk-count diagnostic printed before a judge call is the number
of separator-marker occurrences in the joined context plus one; hence for a
non-empty chunk list whose joined elements do not contain the marker it
equals the number of chunks actually joined, `(chunks.take 5).length`, which
is `min 5 chunks.length` — at most 5; for the empty chunk list (last
conjunct) the diagnostic reports 1 rather than 0. -/
theorem claim_C10_chunk_count_diagnostic (chunks : List (List Char))
    (hne : chunks ≠ [])
    (hfree : ∀ c ∈ chunks.take 5, ¬ markerChars <:+: c) :
    printedChunkCount (joinedContext chunks) = (chunks.take 5).length
    ∧ (chunks.take 5).length = min 5 chunks.length
    ∧ printedChunkCount (joinedContext []) = 1 := by
  have htake : chunks.take 5 ≠ [] := by
    cases chunks with
    | nil => exact absurd rfl hne
    | cons c t => simp
  refine ⟨?_, by simp, rfl⟩
  unfold printedChunkCount joinedContext
  rw [countOcc_marker_pyJoin (chunks.take 5) htake hfree]
  have hlen : 1 ≤ (chunks.take 5).length := by
    cases h5 : chunks.take 5 with
    | nil => exact absurd h5 htake
    | cons x xs => simp
  omega

/-- Witness for C10 at a concrete input: three marker-free one-character
chunks give a diagnostic of 3. -/
theorem claim_C10_witness :
    printedChunkCount (joinedContext [['a'], ['b'], ['c']]) = 3
    ∧ printedChunkCount (joinedContext []) = 1 := by
  have h := claim_C10_chunk_count_diagnostic [['a'], ['b'], ['c']]
    (by decide) (by decide)
  exact ⟨h.1, h.2.2⟩
